import Mathlib

/-!
Verification development for the scheduled audio-capture orchestrator
(`app/utils/RecordingBackgroundUtil.py` and `app/utils/system_validation.py`).

The Python code is shallowly embedded: pure helpers become Lean functions,
the stateful service becomes explicit state passing over a `ServiceState`
record, wall-clock reads (`datetime.now`) become explicit parameters
(current day name, current time-of-day in seconds, current timestamp),
and external I/O outcomes (file system, blob-store upload, database)
become explicit environment parameters.
-/

namespace CapitalRadio

/-! ## Association-list helpers (model of Python `dict` lookup/update) -/

def lookupA {α β : Type} [DecidableEq α] : List (α × β) → α → Option β
  | [], _ => none
  | p :: t, k => if p.1 = k then some p.2 else lookupA t k

def updateAssoc {α β : Type} [DecidableEq α] : List (α × β) → α → β → List (α × β)
  | [], _, _ => []
  | p :: t, k, v => if p.1 = k then (k, v) :: updateAssoc t k v else p :: updateAssoc t k v

def eraseKey {α β : Type} [DecidableEq α] : List (α × β) → α → List (α × β)
  | [], _ => []
  | p :: t, k => if p.1 = k then eraseKey t k else p :: eraseKey t k

/-! ## Time parsing — `_time_to_seconds` (RecordingBackgroundUtil.py 280–285)

`_time_to_seconds` does `hour, minute = map(int, time_str.split(':'))` and
returns `hour*3600 + minute*60`, with any exception collapsed to `0`.
We model Python `str.split(':')` by `splitColon` on the character list and
Python `int(...)` by `pyIntChars` (optional surrounding whitespace, optional
sign, a non-empty run of decimal digits; the rarely used digit-group
underscores of Python integer literals are not modelled). -/

def splitColon : List Char → List (List Char)
  | [] => [[]]
  | c :: rest =>
    let r := splitColon rest
    if c = ':' then [] :: r
    else
      match r with
      | [] => [[c]]
      | h :: t => (c :: h) :: t

def isWs (c : Char) : Bool := c = ' ' || c = '\t' || c = '\n' || c = '\r'

def trimChars (l : List Char) : List Char :=
  ((l.dropWhile isWs).reverse.dropWhile isWs).reverse

def digitsToNat (l : List Char) : ℕ :=
  l.foldl (fun n c => 10 * n + (c.toNat - 48)) 0

def pyIntChars (l0 : List Char) : Option ℤ :=
  match trimChars l0 with
  | '-' :: rest =>
    if rest ≠ [] ∧ rest.all Char.isDigit then some (-(digitsToNat rest : ℤ)) else none
  | '+' :: rest =>
    if rest ≠ [] ∧ rest.all Char.isDigit then some ((digitsToNat rest : ℤ)) else none
  | l =>
    if l ≠ [] ∧ l.all Char.isDigit then some ((digitsToNat l : ℤ)) else none

/-- The successful part of `_time_to_seconds`: `time_str.split(':')` must give
exactly two `int(..)`-parseable pieces, otherwise the `except` branch fires. -/
def parseHHMM (s : String) : Option (ℤ × ℤ) :=
  match splitColon s.toList with
  | [a, b] =>
    match pyIntChars a, pyIntChars b with
    | some h, some m => some (h, m)
    | _, _ => none
  | _ => none

/-- `_time_to_seconds` (lines 280–285): `hour*3600 + minute*60`, any parse
failure returns `0`. -/
def timeToSeconds (s : String) : ℤ :=
  match parseHHMM s with
  | some (h, m) => h * 3600 + m * 60
  | none => 0

/-! ## Schedule resolver (RecordingBackgroundUtil.py 287–328) -/

/-- A schedule session dict as consumed by the resolver: only the keys the
resolver reads.  `session.get('start_time')` may be absent (`none`). -/
structure SessionM where
  start_time : Option String
  end_time : Option String
  deriving Repr, DecidableEq

/-- Python truthiness of `session.get(...)` for a string value:
`None` and the empty string are falsy. -/
def truthyStr : Option String → Bool
  | none => false
  | some s => s ≠ ""

/-- The per-day loop of `_get_current_session` (lines 297–310): first session
whose `[start, end]` (end shifted +24h when `end_seconds <= start_seconds`)
contains `cur`, sessions with falsy `start_time`/`end_time` skipped. -/
def findSession (cur : ℤ) : List SessionM → Option SessionM
  | [] => none
  | s :: rest =>
    if truthyStr s.start_time && truthyStr s.end_time then
      let ss := timeToSeconds (s.start_time.getD "")
      let es0 := timeToSeconds (s.end_time.getD "")
      let es := if es0 ≤ ss then es0 + 86400 else es0
      if ss ≤ cur ∧ cur ≤ es then some s else findSession cur rest
    else findSession cur rest

/-- `StationSchedule.sessions`: day-of-week name to that day's session list. -/
structure StationScheduleM where
  sessions : List (String × List SessionM)
  deriving Repr, DecidableEq

/-- `_get_current_session` (lines 287–310).  `dayName` models
`now.strftime('%A').lower()` and `cur` models
`now.hour*3600 + now.minute*60 + now.second` for the Nairobi-local `now`. -/
def getCurrentSession (schedule : Option StationScheduleM) (dayName : String)
    (cur : ℤ) : Option SessionM :=
  match schedule with
  | none => none
  | some sc =>
    match lookupA sc.sessions dayName with
    | none => none
    | some daySessions => findSession cur daySessions

/-- `_should_start_recording` (lines 312–319):
`current_seconds >= _time_to_seconds(session.get('start_time', '00:00'))`. -/
def shouldStartRecording (s : SessionM) (cur : ℤ) : Bool :=
  decide (cur ≥ timeToSeconds (s.start_time.getD "00:00"))

/-- `_should_stop_recording` (lines 321–328):
`current_seconds >= _time_to_seconds(session.get('end_time', '23:59'))`.
Note: no midnight adjustment is applied here. -/
def shouldStopRecording (s : SessionM) (cur : ℤ) : Bool :=
  decide (cur ≥ timeToSeconds (s.end_time.getD "23:59"))

/-- The spec's wording of `ShouldStop` (spec §4.1): `now_seconds >= end_seconds`
with the end first shifted +24h whenever `end_time <= start_time`.  Declared
only to be compared against `shouldStopRecording`, the definition taken from
the source. -/
def shouldStopSpecified (s : SessionM) (cur : ℤ) : Bool :=
  let ss := timeToSeconds (s.start_time.getD "00:00")
  let es0 := timeToSeconds (s.end_time.getD "23:59")
  let es := if es0 ≤ ss then es0 + 86400 else es0
  decide (cur ≥ es)

/-- The membership test of the spec's resolver wording as a predicate on one
session (truthy times, end shifted +24h when `end <= start`, closed bounds as
in the source); `findSession` is compared against `List.find?` of this. -/
def sessionMatches (cur : ℤ) (s : SessionM) : Bool :=
  if truthyStr s.start_time && truthyStr s.end_time then
    let ss := timeToSeconds (s.start_time.getD "")
    let es0 := timeToSeconds (s.end_time.getD "")
    let es := if es0 ≤ ss then es0 + 86400 else es0
    decide (ss ≤ cur ∧ cur ≤ es)
  else false

/-! ## Retrying file operations (RecordingBackgroundUtil.py 179–269)

Retry policy fields of `EnhancedStationRecordingService.__init__`:
`max_file_access_retries = 10`, `base_retry_delay = 0.5`,
`max_retry_delay = 30.0`. -/

structure FileCfg where
  maxRetries : ℕ
  baseDelay : ℚ
  maxDelay : ℚ
  deriving Repr, DecidableEq

def serviceFileCfg : FileCfg := { maxRetries := 10, baseDelay := 1 / 2, maxDelay := 30 }

/-- Observable file-system / external-world behaviour for one capture file:
existence, byte size, whether the file is still locked at the n-th unlock
check, whether the n-th read / delete OS call fails, the bytes read, and the
blob-store (`save_upload_file`) outcome — error message or (path, url). -/
structure FileEnv where
  fileExists : Bool
  fileSize : ℕ
  lockedAt : ℕ → Bool
  readFailsAt : ℕ → Bool
  content : String
  uploadResult : Except String (String × String)
  deleteFailsAt : ℕ → Bool

/-- The retry loop of `_wait_for_file_unlock` (lines 201–208): on each
attempt, an unlocked file returns success; otherwise sleep
`min(base_delay * 2^attempt, max_delay)` and retry.  Returns the flag and the
ordered list of back-off sleeps performed. -/
def waitUnlockLoop (locked : ℕ → Bool) (base maxD : ℚ) : ℕ → ℕ → Bool × List ℚ
  | 0, _ => (false, [])
  | n + 1, attempt =>
    if locked attempt then
      let d := min (base * 2 ^ attempt) maxD
      let r := waitUnlockLoop locked base maxD n (attempt + 1)
      (r.1, d :: r.2)
    else (true, [])

/-- `_wait_for_file_unlock` (lines 190–211): a missing file returns false
immediately; otherwise run the retry loop from attempt 0. -/
def waitForFileUnlock (cfg : FileCfg) (env : FileEnv) : Bool × List ℚ :=
  if env.fileExists then
    waitUnlockLoop env.lockedAt cfg.baseDelay cfg.maxDelay cfg.maxRetries 0
  else (false, [])

structure ReadResult where
  success : Bool
  content : Option String
  message : String
  deriving Repr, DecidableEq

/-- The read-retry loop of `_safe_file_read` (lines 232–244): the n-th
`open(...).read()` either fails (retry after back-off) or returns content. -/
def readAttemptLoop (fails : ℕ → Bool) (content : String) : ℕ → ℕ → Option String
  | 0, _ => none
  | n + 1, attempt =>
    if fails attempt then readAttemptLoop fails content n (attempt + 1)
    else some content

/-- `_safe_file_read` (lines 213–245). -/
def safeFileRead (cfg : FileCfg) (env : FileEnv) (path : String) : ReadResult :=
  if ¬ env.fileExists then
    { success := false, content := none, message := "File does not exist: " ++ path }
  else if env.fileSize = 0 then
    { success := false, content := none, message := "File is empty: " ++ path }
  else if ¬ (waitForFileUnlock cfg env).1 then
    { success := false, content := none,
      message := "File remains locked after retries: " ++ path }
  else
    match readAttemptLoop env.readFailsAt env.content cfg.maxRetries 0 with
    | some c => { success := true, content := some c, message := "Success" }
    | none =>
      { success := false, content := none,
        message := "Failed to read file after " ++ toString cfg.maxRetries ++ " attempts" }

structure DeleteResult where
  success : Bool
  message : String
  /-- Instrumentation: whether an `os.remove` call actually removed the file. -/
  deleted : Bool
  deriving Repr, DecidableEq

/-- The delete-retry loop of `_safe_file_delete` (lines 257–267). -/
def deleteAttemptLoop (fails : ℕ → Bool) : ℕ → ℕ → Bool
  | 0, _ => false
  | n + 1, attempt =>
    if fails attempt then deleteAttemptLoop fails n (attempt + 1)
    else true

/-- `_safe_file_delete` (lines 247–269). -/
def safeFileDelete (cfg : FileCfg) (env : FileEnv) (path : String) : DeleteResult :=
  if ¬ env.fileExists then
    { success := true, message := "File already deleted", deleted := false }
  else if ¬ (waitForFileUnlock cfg env).1 then
    { success := false, message := "Cannot delete locked file: " ++ path, deleted := false }
  else if deleteAttemptLoop env.deleteFailsAt cfg.maxRetries 0 then
    { success := true, message := "File deleted successfully", deleted := true }
  else
    { success := false,
      message := "Failed to delete file after " ++ toString cfg.maxRetries ++ " attempts",
      deleted := false }

/-! ## Recording record and finalization (RecordingBackgroundUtil.py 751–889) -/

inductive RecStatus
  | scheduled
  | recording
  | completed
  | failed
  deriving Repr, DecidableEq

/-- The fields of `RadioSessionRecording` that `_finalize_recording` touches.
Timestamps are rational seconds since an arbitrary epoch. -/
structure RecordingRecord where
  recordingStatus : RecStatus
  errorMessage : Option String
  actualStartTime : ℚ
  actualEndTime : Option ℚ
  durationMinutes : Option ℚ
  recordingFilePath : String
  recordingFileUrl : Option String
  fileSizeMb : Option ℚ
  deriving Repr, DecidableEq

/-- Round-half-to-even, the rounding mode of Python `round`. -/
def roundHalfToEven (x : ℚ) : ℤ :=
  let f := ⌊x⌋
  if x - f < 1 / 2 then f
  else if (1 : ℚ) / 2 < x - f then f + 1
  else if f % 2 = 0 then f else f + 1

/-- Python `round(x, 1)` on exact rationals (the binary floating-point
representation error of CPython floats is not modelled). -/
def pyRound1 (x : ℚ) : ℚ := (roundHalfToEven (10 * x) : ℚ) / 10

/-- Python `round(x, 2)` on exact rationals. -/
def pyRound2 (x : ℚ) : ℚ := (roundHalfToEven (100 * x) : ℚ) / 100

/-- File/blob operations attempted by finalization, in order. -/
inductive FinEvent
  | readFile
  | uploadFile
  | deleteTemp
  deriving Repr, DecidableEq

/-- `_finalize_recording` (lines 751–889) acting on a found recording row.
`captureStart` is `recording_data['start_time']` and `now` the Nairobi
`datetime.now()` taken at finalization (line 770); the duration is
`round((now - captureStart).total_seconds() / 60, 1)` (line 771).  Returns
the updated row together with the ordered list of file/blob operations
attempted (reading the capture file, handing it to the blob store, deleting
the local temp file). -/
def finalizeRecording (cfg : FileCfg) (env : FileEnv) (filePath : String)
    (captureStart now : ℚ) (rec : RecordingRecord) :
    RecordingRecord × List FinEvent :=
  let duration := pyRound1 ((now - captureStart) / 60)
  if env.fileExists then
    if 0 < env.fileSize then
      let sizeMb : ℚ := (env.fileSize : ℚ) / (1024 * 1024)
      let r := safeFileRead cfg env filePath
      if r.success && decide (r.content.getD "" ≠ "") then
        match env.uploadResult with
        | Except.ok pu =>
          ({ rec with
              recordingStatus := RecStatus.completed,
              actualEndTime := some now,
              recordingFilePath := pu.1,
              recordingFileUrl := some pu.2,
              fileSizeMb := some (pyRound2 sizeMb),
              durationMinutes := some duration,
              errorMessage := none },
           [FinEvent.readFile, FinEvent.uploadFile, FinEvent.deleteTemp])
        | Except.error e =>
          ({ rec with
              recordingStatus := RecStatus.failed,
              errorMessage := some ("File upload error: " ++ e),
              actualEndTime := some now,
              durationMinutes := some duration,
              recordingFilePath := filePath },
           [FinEvent.readFile, FinEvent.uploadFile])
      else
        ({ rec with
            recordingStatus := RecStatus.failed,
            errorMessage := some ("File read error: " ++ r.message),
            actualEndTime := some now,
            durationMinutes := some duration,
            recordingFilePath := filePath },
         [FinEvent.readFile])
    else
      ({ rec with
          recordingStatus := RecStatus.failed,
          errorMessage := some "Recording file is empty (0 bytes)",
          actualEndTime := some now,
          durationMinutes := some duration }, [])
  else
    ({ rec with
        recordingStatus := RecStatus.failed,
        errorMessage := some "Recording file not found",
        actualEndTime := some now,
        durationMinutes := some duration }, [])

/-! ## Service state, stop action and shutdown
(RecordingBackgroundUtil.py 346–401, 662–719) -/

/-- One entry of `self.recording_processes` (lines 554–560): the fields the
stop/finalize path reads (`recording_id`, `file_path`, `start_time`); the
live `process` object itself has no modelled state effect. -/
structure CaptureData where
  recordingId : ℕ
  filePath : String
  startTime : ℚ
  deriving Repr, DecidableEq

/-- Observable shutdown events: a recording reaching finalization, and a
station task being cancelled. -/
inductive Event
  | finalized (key : String)
  | cancelled (stationId : String)
  deriving Repr, DecidableEq

/-- In-memory service state plus the recording-record store reachable through
the database session: `self.recording_processes`, `self.station_tasks` (the
station ids owning a task), the `RadioSessionRecording` rows by id, and an
event trace. -/
structure ServiceState where
  recordingProcesses : List (String × CaptureData)
  stationTasks : List String
  records : List (ℕ × RecordingRecord)
  trace : List Event
  deriving DecidableEq

/-- `start_time.replace(':', '')` of line 454. -/
def stripColons (s : String) : String := String.mk (s.toList.filter fun c => c ≠ ':')

/-- `recording_key = f"{station_id}_{session_date}_{start_time.replace(':','')}"`
(line 454). -/
def mkRecordingKey (stationId sessionDate startTime : String) : String :=
  stationId ++ "_" ++ sessionDate ++ "_" ++ stripColons startTime

/-- `_stop_session_recording` (lines 662–719): a key absent from the active
table returns immediately (warning only); otherwise the process is
terminated (no modelled state effect), `_finalize_recording` runs (a missing
database row makes it return with no change, line 764–766), and only
afterwards the key is removed from the active table. -/
def stopSessionRecording (cfg : FileCfg) (envOf : String → FileEnv) (now : ℚ)
    (st : ServiceState) (key : String) : ServiceState :=
  match lookupA st.recordingProcesses key with
  | none => st
  | some cd =>
    let st1 :=
      match lookupA st.records cd.recordingId with
      | none => st
      | some rec =>
        let fin := finalizeRecording cfg (envOf key) cd.filePath cd.startTime now rec
        { st with
            records := updateAssoc st.records cd.recordingId fin.1,
            trace := st.trace ++ [Event.finalized key] }
    { st1 with recordingProcesses := eraseKey st1.recordingProcesses key }

/-- `stop()` (lines 346–401): Step 1 stops every active recording (over a
snapshot of the keys), Step 2 cancels every station task, Step 3 clears both
tables. -/
def stopService (cfg : FileCfg) (envOf : String → FileEnv) (now : ℚ)
    (s : ServiceState) : ServiceState :=
  let s1 := (s.recordingProcesses.map Prod.fst).foldl (stopSessionRecording cfg envOf now) s
  let s2 := { s1 with trace := s1.trace ++ s1.stationTasks.map Event.cancelled }
  { s2 with recordingProcesses := [], stationTasks := [] }

/-- Terminal recording statuses. -/
def isTerminal (s : RecStatus) : Prop :=
  s = RecStatus.completed ∨ s = RecStatus.failed

/-! ### Concrete sessions used in the claims -/

def overnightSession : SessionM :=
  { start_time := some "23:30", end_time := some "00:30" }

def morningSession : SessionM :=
  { start_time := some "09:00", end_time := some "10:00" }

def overnightSchedule : StationScheduleM :=
  { sessions := [("monday", [overnightSession])] }

def morningSchedule : StationScheduleM :=
  { sessions := [("monday", [morningSession])] }

def overlapSession : SessionM :=
  { start_time := some "09:30", end_time := some "10:30" }

def overlapSchedule : StationScheduleM :=
  { sessions := [("monday", [morningSession, overlapSession])] }

/-! ### Concrete environments, records and states used in the claims -/

/-- Environment of a file that exists but stays locked forever. -/
def lockedEnv : FileEnv :=
  { fileExists := true, fileSize := 5, lockedAt := fun _ => true,
    readFailsAt := fun _ => false, content := "x",
    uploadResult := Except.error "unreachable", deleteFailsAt := fun _ => false }

/-- A recording row as created by `_create_recording_entry`, still `recording`. -/
def blankRecord : RecordingRecord :=
  { recordingStatus := RecStatus.recording, errorMessage := none,
    actualStartTime := 0, actualEndTime := none, durationMinutes := none,
    recordingFilePath := "./temp_recordings/t.mp3", recordingFileUrl := none,
    fileSizeMb := none }

/-- Environment of a missing capture file. -/
def missingEnv : FileEnv :=
  { fileExists := false, fileSize := 0, lockedAt := fun _ => false,
    readFailsAt := fun _ => false, content := "",
    uploadResult := Except.error "unreachable", deleteFailsAt := fun _ => false }

/-- Environment of an existing but zero-length capture file. -/
def emptyEnv : FileEnv :=
  { missingEnv with fileExists := true }

/-- Environment of a healthy capture file whose upload fails. -/
def badUploadEnv : FileEnv :=
  { fileExists := true, fileSize := 1048576, lockedAt := fun _ => false,
    readFailsAt := fun _ => false, content := "audio-bytes",
    uploadResult := Except.error "storage down", deleteFailsAt := fun _ => false }

/-- Environment of a healthy capture file whose upload succeeds. -/
def goodUploadEnv : FileEnv :=
  { badUploadEnv with
    uploadResult := Except.ok ("recordings/sessions/t.mp3", "https://cdn/t.mp3") }

/-- One active capture for station `s1`. -/
def demoCapture : CaptureData :=
  { recordingId := 1, filePath := "./temp_recordings/t.mp3", startTime := 0 }

/-- A service with one station task and one active capture, whose recording
row is still `recording`. -/
def demoState : ServiceState :=
  { recordingProcesses := [("s1_20250101_0900", demoCapture)],
    stationTasks := ["s1"],
    records := [(1, blankRecord)],
    trace := [] }

/-- Every key's capture file uploads successfully in the demo world. -/
def demoEnvOf : String → FileEnv := fun _ => goodUploadEnv

/-! ## Preflight validation (system_validation.py 61–199) and
`validate_and_start` (RecordingBackgroundUtil.py 68–107)

`OSSpecificSystemValidator.validate_system` accumulates `errors` and
`warnings` from its numbered checks; the outcomes of the individual probes
(subprocess runs, database round-trip, psutil readings, OS-specific checks)
are inputs here.  Errors arise only from FFmpeg validation (step 3), storage
validation failure (step 5), database connectivity (step 6) and file
permissions (step 7); the OS-prerequisite, timezone, resource, network and
service checks contribute warnings / platform issues only. -/

structure ValidationInput where
  prereqWarnings : List String
  ffmpegOk : Bool
  ffmpegErrMsg : String
  ffmpegOsWarnings : List String
  timezoneWarnings : List String
  storageOk : Bool
  storageErrMsg : String
  availableGb : ℚ
  storageWarnings : List String
  dbOk : Bool
  dbErrMsg : String
  permissionsOk : Bool
  permissionsErrMsg : String
  permissionsWarnings : List String
  memoryGb : ℚ
  cpuCount : ℕ
  resourceWarnings : List String
  networkOk : Bool
  networkMsg : String
  serviceWarnings : List String
  deriving Repr, DecidableEq

structure ValidationResultM where
  isValid : Bool
  errors : List String
  warnings : List String
  deriving Repr, DecidableEq

/-- The numeric parts of the formatted warning strings are elided. -/
def lowDiskWarning : String := "Low disk space"

def lowMemoryWarning : String := "Low memory"

def lowCpuWarning : String := "Low CPU count"

/-- `validate_system` (system_validation.py 61–199): errors and warnings in
the order the checks append them; `is_valid = len(errors) == 0`
(line 187). -/
def validateSystem (minDiskGb : ℚ) (inp : ValidationInput) : ValidationResultM :=
  let errors :=
    (if inp.ffmpegOk then [] else ["FFmpeg validation failed: " ++ inp.ffmpegErrMsg]) ++
    (if inp.storageOk then [] else ["Storage validation failed: " ++ inp.storageErrMsg]) ++
    (if inp.dbOk then [] else ["Database validation failed: " ++ inp.dbErrMsg]) ++
    (if inp.permissionsOk then [] else
      ["File permissions validation failed: " ++ inp.permissionsErrMsg])
  let warnings :=
    inp.prereqWarnings ++
    (if inp.ffmpegOk then inp.ffmpegOsWarnings else []) ++
    inp.timezoneWarnings ++
    (if inp.storageOk ∧ inp.availableGb < minDiskGb then [lowDiskWarning] else []) ++
    (if inp.storageOk then inp.storageWarnings else []) ++
    (if inp.permissionsOk then inp.permissionsWarnings else []) ++
    (if inp.memoryGb < 1 then [lowMemoryWarning] else []) ++
    (if inp.cpuCount < 2 then [lowCpuWarning] else []) ++
    inp.resourceWarnings ++
    (if inp.networkOk then [] else ["Network validation warning: " ++ inp.networkMsg]) ++
    inp.serviceWarnings
  { isValid := errors.isEmpty, errors := errors, warnings := warnings }

/-- `validate_and_start` (RecordingBackgroundUtil.py 68–107): run the
validator; when `is_valid` is false raise `SystemExit` (modelled as
`Except.error`), otherwise proceed to start the service. -/
def validateAndStart (minDiskGb : ℚ) (inp : ValidationInput) : Except String Unit :=
  if (validateSystem minDiskGb inp).isValid then Except.ok ()
  else Except.error "System validation failed - see report above"

/-- The validator is constructed with `min_disk_gb=5.0`
(RecordingBackgroundUtil.py 60–63). -/
def serviceMinDiskGb : ℚ := 5

/-- All probes healthy. -/
def healthyInput : ValidationInput :=
  { prereqWarnings := [], ffmpegOk := true, ffmpegErrMsg := "",
    ffmpegOsWarnings := [], timezoneWarnings := [],
    storageOk := true, storageErrMsg := "", availableGb := 100,
    storageWarnings := [], dbOk := true, dbErrMsg := "",
    permissionsOk := true, permissionsErrMsg := "", permissionsWarnings := [],
    memoryGb := 8, cpuCount := 4, resourceWarnings := [],
    networkOk := true, networkMsg := "", serviceWarnings := [] }

/-- Healthy probes except low disk (2 GB < 5 GB) and low memory (0.5 GB). -/
def degradedInput : ValidationInput :=
  { healthyInput with availableGb := 2, memoryGb := 1 / 2 }

/-- FFmpeg missing from PATH. -/
def noFfmpegInput : ValidationInput :=
  { healthyInput with
    ffmpegOk := false,
    ffmpegErrMsg := "FFmpeg not found in PATH. Please install FFmpeg and ensure it is accessible." }

/-- Database unreachable. -/
def noDbInput : ValidationInput :=
  { healthyInput with dbOk := false, dbErrMsg := "Database connection failed" }

/-- Recording directory not writable. -/
def noWriteInput : ValidationInput :=
  { healthyInput with
    permissionsOk := false,
    permissionsErrMsg := "File permission test failed" }

theorem findSession_cons (cur : ℤ) (s : SessionM) (rest : List SessionM) :
    findSession cur (s :: rest) =
      if sessionMatches cur s then some s else findSession cur rest := by
  conv_lhs => rw [findSession]
  unfold sessionMatches
  cases hA : (truthyStr s.start_time && truthyStr s.end_time)
  · simp [hA]
  · simp only [hA, if_true, decide_eq_true_eq]

/-- C2 counterexample: the claim states that for the overnight session
23:30–00:30, `CurrentSession` at 00:15 of the following day still returns the
session.  In the code, at 00:15 the day lookup already uses the new day's
name, and even scanning the starting day's list the test
`start_seconds <= current_seconds` (84600 ≤ 900) fails because the current
time-of-day is never shifted past midnight — so the resolver returns `none`,
not the session. -/
theorem c2_overnight_counterexample :
    getCurrentSession (some overnightSchedule) "tuesday" 900 = none ∧
    getCurrentSession (some overnightSchedule) "monday" 900 = none := by
  exact ⟨by decide, by decide⟩

/-- C2 amended: for the overnight session 23:30–00:30, `CurrentSession`
evaluated at 00:15 on the following day returns no session (neither under the
new day's name nor under the starting day's list, since the current
time-of-day is never wrapped past midnight); the +24h end-shift keeps the
session active only for times of the starting day from 23:30 up to midnight,
e.g. at 23:45. -/
theorem c2_overnight_amended :
    getCurrentSession (some overnightSchedule) "tuesday" 900 = none ∧
    getCurrentSession (some overnightSchedule) "monday" 900 = none ∧
    getCurrentSession (some overnightSchedule) "monday" 85500 =
      some overnightSession := by
  exact ⟨by decide, by decide, by decide⟩

/-- C3 counterexample: the claim states `ShouldStop` compares against an end
time shifted +24h whenever `end_time <= start_time`.  The code
(`_should_stop_recording`, lines 321–328) applies no such shift: for the
overnight session 23:30–00:30 at 01:00 (3600 s) it returns `true`, while the
claimed shifted comparison (3600 ≥ 88200) is `false`. -/
theorem c3_should_stop_counterexample :
    shouldStopRecording overnightSession 3600 = true ∧
    shouldStopSpecified overnightSession 3600 = false := by
  exact ⟨by decide, by decide⟩

/-- C3 amended: `ShouldStop(session, now)` returns true exactly when the
current time-of-day in seconds is ≥ the session's end time in seconds with
no midnight adjustment (even when `end_time <= start_time`); in particular
for a 09:00–10:00 session it returns false at 09:59:59 and true at
10:00:00. -/
theorem c3_should_stop_amended :
    (∀ (s : SessionM) (cur : ℤ),
      shouldStopRecording s cur = true ↔
        timeToSeconds (s.end_time.getD "23:59") ≤ cur) ∧
    shouldStopRecording morningSession 35999 = false ∧
    shouldStopRecording morningSession 36000 = true := by
  refine ⟨fun s cur => ?_, by decide, by decide⟩
  simp [shouldStopRecording, ge_iff_le]

/-- C4 counterexample: the claim states the matching interval is half-open
`[start, end)`, so a time equal to the end time is not contained.  The code
(line 308) tests `start_seconds <= current_seconds <= end_seconds`, a closed
interval: at exactly 10:00:00 (36000 s) the 09:00–10:00 session is still
returned. -/
theorem c4_interval_counterexample :
    getCurrentSession (some morningSchedule) "monday" 36000 =
      some morningSession := by
  decide

/-- C4 amended: `CurrentSession` matches a session exactly when the current
time-of-day lies in the closed interval `[start, end]` (end extended +24h
when `end <= start`), so a time equal to the end time is still contained;
when several sessions of the day match, the first one in list order is
returned (`findSession` is `List.find?` of the match predicate). -/
theorem c4_first_match_amended :
    (∀ (cur : ℤ) (l : List SessionM),
      findSession cur l = l.find? (sessionMatches cur)) ∧
    getCurrentSession (some morningSchedule) "monday" 36000 =
      some morningSession ∧
    getCurrentSession (some overlapSchedule) "monday" 35000 =
      some morningSession := by
  refine ⟨fun cur l => ?_, by decide, by decide⟩
  induction l with
  | nil => rfl
  | cons s rest ih =>
    rw [findSession_cons, ih]
    by_cases h : sessionMatches cur s = true
    · simp [List.find?_cons_of_pos _ h, h]
    · simp [List.find?_cons_of_neg _ h, h]

/-- C10: any input string on which `hour, minute = map(int, s.split(':'))`
fails (not two colon-separated integers) makes `_time_to_seconds` return 0
via its `except` branch; consequently `_should_start_recording` on a session
whose `start_time` is such a malformed string always returns true, since the
current time-of-day in seconds is never negative. -/
theorem c10_malformed_time_starts_immediately :
    (∀ s : String, parseHHMM s = none → timeToSeconds s = 0) ∧
    (∀ (sess : SessionM) (str : String) (cur : ℤ), 0 ≤ cur →
      sess.start_time = some str → parseHHMM str = none →
      shouldStartRecording sess cur = true) := by
  constructor
  · intro s h
    simp [timeToSeconds, h]
  · intro sess str cur hcur hstart hparse
    simp [shouldStartRecording, hstart, timeToSeconds, hparse, ge_iff_le, hcur]

/-- C10 witness: the malformed start time "banana" yields 0 seconds and an
immediate start at midnight. -/
theorem c10_witness :
    parseHHMM "banana" = none ∧
    timeToSeconds "banana" = 0 ∧
    shouldStartRecording { start_time := some "banana", end_time := some "10:00" } 0 = true := by
  refine ⟨by decide, c10_malformed_time_starts_immediately.1 "banana" (by decide), ?_⟩
  exact c10_malformed_time_starts_immediately.2
    { start_time := some "banana", end_time := some "10:00" } "banana" 0
    (by decide) rfl (by decide)

/-! ### C5: unlock back-off and locked delete -/

theorem waitUnlockLoop_locked (locked : ℕ → Bool) (base maxD : ℚ)
    (h : ∀ n, locked n = true) :
    ∀ (n a : ℕ), waitUnlockLoop locked base maxD n a =
      (false, (List.range' a n).map fun i => min (base * 2 ^ i) maxD)
  | 0, a => by simp [waitUnlockLoop]
  | n + 1, a => by
    rw [waitUnlockLoop, List.range'_succ]
    simp [h a, waitUnlockLoop_locked locked base maxD h n (a + 1)]

/-- C5: on an existing file that never becomes unlocked,
`_wait_for_file_unlock` sleeps `min(base_delay * 2^attempt, max_delay)`
before each retry (attempts 0, 1, …, max_retries−1, listed in order) and
returns false after `max_retries` attempts; consequently `_safe_file_delete`
returns an error without attempting any deletion, so the file stays on
disk. -/
theorem c5_locked_backoff_and_delete (cfg : FileCfg) (env : FileEnv) (path : String)
    (hex : env.fileExists = true) (hlock : ∀ n, env.lockedAt n = true) :
    waitForFileUnlock cfg env =
      (false, (List.range cfg.maxRetries).map fun a => min (cfg.baseDelay * 2 ^ a) cfg.maxDelay) ∧
    safeFileDelete cfg env path =
      { success := false, message := "Cannot delete locked file: " ++ path, deleted := false } := by
  have hwait : waitForFileUnlock cfg env =
      (false, (List.range cfg.maxRetries).map fun a => min (cfg.baseDelay * 2 ^ a) cfg.maxDelay) := by
    rw [waitForFileUnlock, if_pos hex, waitUnlockLoop_locked env.lockedAt _ _ hlock, List.range_eq_range']
  refine ⟨hwait, ?_⟩
  rw [safeFileDelete, if_neg (by simp [hex]), if_pos (by simp [hwait])]

/-- C5 witness at the service's default retry policy. -/
theorem c5_witness :
    waitForFileUnlock serviceFileCfg lockedEnv =
      (false, (List.range serviceFileCfg.maxRetries).map
        fun a => min (serviceFileCfg.baseDelay * 2 ^ a) serviceFileCfg.maxDelay) ∧
    safeFileDelete serviceFileCfg lockedEnv "./temp_recordings/a.mp3" =
      { success := false,
        message := "Cannot delete locked file: " ++ "./temp_recordings/a.mp3",
        deleted := false } :=
  c5_locked_backoff_and_delete serviceFileCfg lockedEnv "./temp_recordings/a.mp3"
    rfl (fun _ => rfl)

/-! ### C6 and C7: finalization outcomes -/

/-- C6: during finalization, a missing capture file yields status `failed`
with `error_message = "Recording file not found"`, and an existing zero-length
file yields `failed` with `error_message = "Recording file is empty (0
bytes)"`; in both cases `actual_end_time` is set; and on EVERY path through
finalization (terminal transition) `duration_minutes` is committed as
`round((now − captureStart) in minutes, 1)`. -/
theorem c6_finalize_failed_paths_and_duration (cfg : FileCfg) (env : FileEnv)
    (filePath : String) (captureStart now : ℚ) (rec : RecordingRecord) :
    (env.fileExists = false →
      (finalizeRecording cfg env filePath captureStart now rec).1.recordingStatus = RecStatus.failed ∧
      (finalizeRecording cfg env filePath captureStart now rec).1.errorMessage =
        some "Recording file not found" ∧
      (finalizeRecording cfg env filePath captureStart now rec).1.actualEndTime = some now) ∧
    (env.fileExists = true → env.fileSize = 0 →
      (finalizeRecording cfg env filePath captureStart now rec).1.recordingStatus = RecStatus.failed ∧
      (finalizeRecording cfg env filePath captureStart now rec).1.errorMessage =
        some "Recording file is empty (0 bytes)" ∧
      (finalizeRecording cfg env filePath captureStart now rec).1.actualEndTime = some now) ∧
    (finalizeRecording cfg env filePath captureStart now rec).1.durationMinutes =
      some (pyRound1 ((now - captureStart) / 60)) := by
  refine ⟨fun h => ?_, fun h h0 => ?_, ?_⟩
  · simp [finalizeRecording, h]
  · simp [finalizeRecording, h, h0]
  · rcases henv : env.uploadResult with e | pu <;>
      (simp only [finalizeRecording, henv]; split_ifs <;> rfl)

/-- C7: once finalization has read a non-empty capture file, a failing
blob-store upload leaves the record `failed` with the upload error as
`error_message`, keeps the local temp path on the record, and attempts no
delete; a successful upload makes the record `completed` with the
storage-assigned path/url and a cleared `error_message`, and only then is the
temp-file delete attempted (strictly after the upload in the operation
order). -/
theorem c7_upload_failure_keeps_temp_success_deletes (cfg : FileCfg) (env : FileEnv)
    (filePath : String) (captureStart now : ℚ) (rec : RecordingRecord)
    (hex : env.fileExists = true) (hsz : 0 < env.fileSize)
    (hread : (safeFileRead cfg env filePath).success = true)
    (hcontent : (safeFileRead cfg env filePath).content.getD "" ≠ "") :
    (∀ e, env.uploadResult = Except.error e →
      (finalizeRecording cfg env filePath captureStart now rec).1.recordingStatus = RecStatus.failed ∧
      (finalizeRecording cfg env filePath captureStart now rec).1.errorMessage =
        some ("File upload error: " ++ e) ∧
      (finalizeRecording cfg env filePath captureStart now rec).1.recordingFilePath = filePath ∧
      FinEvent.deleteTemp ∉ (finalizeRecording cfg env filePath captureStart now rec).2) ∧
    (∀ p u, env.uploadResult = Except.ok (p, u) →
      (finalizeRecording cfg env filePath captureStart now rec).1.recordingStatus =
        RecStatus.completed ∧
      (finalizeRecording cfg env filePath captureStart now rec).1.errorMessage = none ∧
      (finalizeRecording cfg env filePath captureStart now rec).1.recordingFilePath = p ∧
      (finalizeRecording cfg env filePath captureStart now rec).1.recordingFileUrl = some u ∧
      (finalizeRecording cfg env filePath captureStart now rec).2 =
        [FinEvent.readFile, FinEvent.uploadFile, FinEvent.deleteTemp]) := by
  constructor
  · intro e he
    simp [finalizeRecording, hex, hsz, hread, hcontent, he]
  · intro p u hu
    simp [finalizeRecording, hex, hsz, hread, hcontent, hu]

/-- C6 witness: a missing file and an empty file both finalize to `failed`
with the corresponding message, and the duration formula is committed. -/
theorem c6_witness :
    ((finalizeRecording serviceFileCfg missingEnv "./temp_recordings/t.mp3" 0 90 blankRecord).1.recordingStatus = RecStatus.failed ∧
     (finalizeRecording serviceFileCfg missingEnv "./temp_recordings/t.mp3" 0 90 blankRecord).1.errorMessage = some "Recording file not found" ∧
     (finalizeRecording serviceFileCfg missingEnv "./temp_recordings/t.mp3" 0 90 blankRecord).1.actualEndTime = some 90) ∧
    ((finalizeRecording serviceFileCfg emptyEnv "./temp_recordings/t.mp3" 0 90 blankRecord).1.recordingStatus = RecStatus.failed ∧
     (finalizeRecording serviceFileCfg emptyEnv "./temp_recordings/t.mp3" 0 90 blankRecord).1.errorMessage = some "Recording file is empty (0 bytes)" ∧
     (finalizeRecording serviceFileCfg emptyEnv "./temp_recordings/t.mp3" 0 90 blankRecord).1.actualEndTime = some 90) ∧
    (finalizeRecording serviceFileCfg missingEnv "./temp_recordings/t.mp3" 0 90 blankRecord).1.durationMinutes =
      some (pyRound1 ((90 - 0) / 60)) :=
  ⟨(c6_finalize_failed_paths_and_duration serviceFileCfg missingEnv
      "./temp_recordings/t.mp3" 0 90 blankRecord).1 rfl,
   (c6_finalize_failed_paths_and_duration serviceFileCfg emptyEnv
      "./temp_recordings/t.mp3" 0 90 blankRecord).2.1 rfl rfl,
   (c6_finalize_failed_paths_and_duration serviceFileCfg missingEnv
      "./temp_recordings/t.mp3" 0 90 blankRecord).2.2⟩

/-- C7 witness: both upload outcomes at concrete environments. -/
theorem c7_witness :
    ((finalizeRecording serviceFileCfg badUploadEnv "./temp_recordings/t.mp3" 0 90 blankRecord).1.recordingStatus = RecStatus.failed ∧
     (finalizeRecording serviceFileCfg badUploadEnv "./temp_recordings/t.mp3" 0 90 blankRecord).1.errorMessage = some ("File upload error: " ++ "storage down") ∧
     (finalizeRecording serviceFileCfg badUploadEnv "./temp_recordings/t.mp3" 0 90 blankRecord).1.recordingFilePath = "./temp_recordings/t.mp3" ∧
     FinEvent.deleteTemp ∉ (finalizeRecording serviceFileCfg badUploadEnv "./temp_recordings/t.mp3" 0 90 blankRecord).2) ∧
    ((finalizeRecording serviceFileCfg goodUploadEnv "./temp_recordings/t.mp3" 0 90 blankRecord).1.recordingStatus = RecStatus.completed ∧
     (finalizeRecording serviceFileCfg goodUploadEnv "./temp_recordings/t.mp3" 0 90 blankRecord).1.errorMessage = none ∧
     (finalizeRecording serviceFileCfg goodUploadEnv "./temp_recordings/t.mp3" 0 90 blankRecord).1.recordingFilePath = "recordings/sessions/t.mp3" ∧
     (finalizeRecording serviceFileCfg goodUploadEnv "./temp_recordings/t.mp3" 0 90 blankRecord).1.recordingFileUrl = some "https://cdn/t.mp3" ∧
     (finalizeRecording serviceFileCfg goodUploadEnv "./temp_recordings/t.mp3" 0 90 blankRecord).2 =
       [FinEvent.readFile, FinEvent.uploadFile, FinEvent.deleteTemp]) :=
  ⟨(c7_upload_failure_keeps_temp_success_deletes serviceFileCfg badUploadEnv
      "./temp_recordings/t.mp3" 0 90 blankRecord rfl (by decide) rfl (by decide)).1
      "storage down" rfl,
   (c7_upload_failure_keeps_temp_success_deletes serviceFileCfg goodUploadEnv
      "./temp_recordings/t.mp3" 0 90 blankRecord rfl (by decide) rfl (by decide)).2
      "recordings/sessions/t.mp3" "https://cdn/t.mp3" rfl⟩

/-! ### Association-list lemmas -/

theorem lookupA_eraseKey_self {α β : Type} [DecidableEq α] (l : List (α × β)) (k : α) :
    lookupA (eraseKey l k) k = none := by
  induction l with
  | nil => rfl
  | cons p t ih =>
    by_cases h : p.1 = k
    · simp [eraseKey, h, ih]
    · simp [eraseKey, h, lookupA, ih]

theorem lookupA_eraseKey_ne {α β : Type} [DecidableEq α] (l : List (α × β)) (k k' : α)
    (h : k ≠ k') : lookupA (eraseKey l k') k = lookupA l k := by
  induction l with
  | nil => rfl
  | cons p t ih =>
    by_cases hp : p.1 = k'
    · simp [eraseKey, hp, lookupA, Ne.symm h, ih]
    · simp [eraseKey, hp, lookupA, ih]

theorem lookupA_updateAssoc_self {α β : Type} [DecidableEq α] (l : List (α × β))
    (k : α) (v v0 : β) (h : lookupA l k = some v0) :
    lookupA (updateAssoc l k v) k = some v := by
  induction l with
  | nil => simp [lookupA] at h
  | cons p t ih =>
    by_cases hp : p.1 = k
    · simp [updateAssoc, lookupA, hp]
    · simp only [lookupA, hp, if_false] at h
      simp [updateAssoc, lookupA, hp, ih h]

theorem lookupA_updateAssoc_ne {α β : Type} [DecidableEq α] (l : List (α × β))
    (k k' : α) (v : β) (h : k' ≠ k) :
    lookupA (updateAssoc l k v) k' = lookupA l k' := by
  induction l with
  | nil => rfl
  | cons p t ih =>
    by_cases hp : p.1 = k
    · simp [updateAssoc, lookupA, hp, Ne.symm h, ih]
    · simp [updateAssoc, lookupA, hp, ih]

theorem lookupA_updateAssoc_isSome {α β : Type} [DecidableEq α] (l : List (α × β))
    (k k' : α) (v : β) (h : (lookupA l k').isSome = true) :
    (lookupA (updateAssoc l k v) k').isSome = true := by
  by_cases hk : k' = k
  · subst hk
    obtain ⟨v0, hv0⟩ := Option.isSome_iff_exists.mp h
    simp [lookupA_updateAssoc_self l k' v v0 hv0]
  · rw [lookupA_updateAssoc_ne l k k' v hk]
    exact h

theorem lookupA_mem_keys {α β : Type} [DecidableEq α] (l : List (α × β)) (k : α)
    (v : β) (h : lookupA l k = some v) : k ∈ l.map Prod.fst := by
  induction l with
  | nil => simp [lookupA] at h
  | cons p t ih =>
    by_cases hp : p.1 = k
    · simp [hp]
    · simp only [lookupA, hp, if_false] at h
      simp [ih h]

/-! ### One-step lemmas about the stop action -/

theorem finalizeRecording_terminal (cfg : FileCfg) (env : FileEnv) (filePath : String)
    (captureStart now : ℚ) (rec : RecordingRecord) :
    isTerminal (finalizeRecording cfg env filePath captureStart now rec).1.recordingStatus := by
  rcases henv : env.uploadResult with e | pu <;>
    (simp only [finalizeRecording, henv]; split_ifs <;> simp [isTerminal])

theorem stopSR_stationTasks (cfg : FileCfg) (envOf : String → FileEnv) (now : ℚ)
    (st : ServiceState) (k : String) :
    (stopSessionRecording cfg envOf now st k).stationTasks = st.stationTasks := by
  rcases h1 : lookupA st.recordingProcesses k with _ | cd
  · simp [stopSessionRecording, h1]
  · rcases h2 : lookupA st.records cd.recordingId with _ | rec <;>
      simp [stopSessionRecording, h1, h2]

theorem stopSR_records_isSome (cfg : FileCfg) (envOf : String → FileEnv) (now : ℚ)
    (st : ServiceState) (k : String) (rid : ℕ)
    (h : (lookupA st.records rid).isSome = true) :
    (lookupA (stopSessionRecording cfg envOf now st k).records rid).isSome = true := by
  rcases h1 : lookupA st.recordingProcesses k with _ | cd
  · simpa [stopSessionRecording, h1] using h
  · rcases h2 : lookupA st.records cd.recordingId with _ | rec
    · simpa [stopSessionRecording, h1, h2] using h
    · simp only [stopSessionRecording, h1, h2]
      exact lookupA_updateAssoc_isSome st.records cd.recordingId rid _ h

theorem stopSR_terminal_preserved (cfg : FileCfg) (envOf : String → FileEnv) (now : ℚ)
    (st : ServiceState) (k : String) (rid : ℕ) (r : RecordingRecord)
    (h : lookupA st.records rid = some r) (hterm : isTerminal r.recordingStatus) :
    ∃ r', lookupA (stopSessionRecording cfg envOf now st k).records rid = some r' ∧
      isTerminal r'.recordingStatus := by
  rcases h1 : lookupA st.recordingProcesses k with _ | cd
  · exact ⟨r, by simpa [stopSessionRecording, h1] using h, hterm⟩
  · rcases h2 : lookupA st.records cd.recordingId with _ | rec
    · exact ⟨r, by simpa [stopSessionRecording, h1, h2] using h, hterm⟩
    · simp only [stopSessionRecording, h1, h2]
      by_cases hr : rid = cd.recordingId
      · subst hr
        exact ⟨_, lookupA_updateAssoc_self st.records cd.recordingId _ rec h2,
          finalizeRecording_terminal cfg (envOf k) cd.filePath cd.startTime now rec⟩
      · exact ⟨r, by
          rw [show lookupA (updateAssoc st.records cd.recordingId
                (finalizeRecording cfg (envOf k) cd.filePath cd.startTime now rec).1) rid =
              lookupA st.records rid from
            lookupA_updateAssoc_ne st.records cd.recordingId rid _ hr]
          exact h, hterm⟩

theorem stopSR_other_key (cfg : FileCfg) (envOf : String → FileEnv) (now : ℚ)
    (st : ServiceState) (k k' : String) (cd : CaptureData)
    (hne : k ≠ k') (h : lookupA st.recordingProcesses k = some cd) :
    lookupA (stopSessionRecording cfg envOf now st k').recordingProcesses k = some cd := by
  rcases h1 : lookupA st.recordingProcesses k' with _ | cd'
  · simpa [stopSessionRecording, h1] using h
  · rcases h2 : lookupA st.records cd'.recordingId with _ | rec
    · simp only [stopSessionRecording, h1, h2]
      rw [lookupA_eraseKey_ne st.recordingProcesses k k' hne]
      exact h
    · simp only [stopSessionRecording, h1, h2]
      rw [lookupA_eraseKey_ne st.recordingProcesses k k' hne]
      exact h

theorem stopSR_trace (cfg : FileCfg) (envOf : String → FileEnv) (now : ℚ)
    (st : ServiceState) (k : String) :
    ∃ t, (stopSessionRecording cfg envOf now st k).trace = st.trace ++ t ∧
      ∀ e ∈ t, ∃ k0, e = Event.finalized k0 := by
  rcases h1 : lookupA st.recordingProcesses k with _ | cd
  · exact ⟨[], by simp [stopSessionRecording, h1], by simp⟩
  · rcases h2 : lookupA st.records cd.recordingId with _ | rec
    · exact ⟨[], by simp [stopSessionRecording, h1, h2], by simp⟩
    · exact ⟨[Event.finalized k], by simp [stopSessionRecording, h1, h2], by simp⟩

theorem stopSR_fires (cfg : FileCfg) (envOf : String → FileEnv) (now : ℚ)
    (st : ServiceState) (k : String) (cd : CaptureData) (rec : RecordingRecord)
    (h1 : lookupA st.recordingProcesses k = some cd)
    (h2 : lookupA st.records cd.recordingId = some rec) :
    (stopSessionRecording cfg envOf now st k).trace = st.trace ++ [Event.finalized k] ∧
    lookupA (stopSessionRecording cfg envOf now st k).records cd.recordingId =
      some (finalizeRecording cfg (envOf k) cd.filePath cd.startTime now rec).1 := by
  constructor
  · simp [stopSessionRecording, h1, h2]
  · simp only [stopSessionRecording, h1, h2]
    exact lookupA_updateAssoc_self st.records cd.recordingId _ rec h2

/-! ### Fold lemmas over the shutdown loop -/

theorem foldStop_reach (cfg : FileCfg) (envOf : String → FileEnv) (now : ℚ) :
    ∀ (l1 : List String) (s : ServiceState) (k : String) (cd : CaptureData),
      k ∉ l1 → lookupA s.recordingProcesses k = some cd →
      (lookupA s.records cd.recordingId).isSome = true →
      lookupA (l1.foldl (stopSessionRecording cfg envOf now) s).recordingProcesses k = some cd ∧
      (lookupA (l1.foldl (stopSessionRecording cfg envOf now) s).records
        cd.recordingId).isSome = true ∧
      (l1.foldl (stopSessionRecording cfg envOf now) s).stationTasks = s.stationTasks ∧
      ∃ t, (l1.foldl (stopSessionRecording cfg envOf now) s).trace = s.trace ++ t ∧
        ∀ e ∈ t, ∃ k0, e = Event.finalized k0 := by
  intro l1
  induction l1 with
  | nil =>
    intro s k cd _ hk hr
    exact ⟨hk, hr, rfl, [], by simp, by simp⟩
  | cons k1 l1r ih =>
    intro s k cd hnotin hk hr
    simp only [List.foldl_cons]
    have hne : k ≠ k1 := fun hkk => hnotin (hkk ▸ List.mem_cons_self k1 l1r)
    have hnotin' : k ∉ l1r := fun hm => hnotin (List.mem_cons_of_mem k1 hm)
    have hk1 := stopSR_other_key cfg envOf now s k k1 cd hne hk
    have hr1 := stopSR_records_isSome cfg envOf now s k1 cd.recordingId hr
    obtain ⟨hk2, hr2, ht2, t2, htr2, hfin2⟩ :=
      ih (stopSessionRecording cfg envOf now s k1) k cd hnotin' hk1 hr1
    obtain ⟨t1, htr1, hfin1⟩ := stopSR_trace cfg envOf now s k1
    refine ⟨hk2, hr2, ?_, t1 ++ t2, ?_, ?_⟩
    · rw [ht2, stopSR_stationTasks]
    · rw [htr2, htr1, List.append_assoc]
    · intro e he
      rcases List.mem_append.mp he with h | h
      · exact hfin1 e h
      · exact hfin2 e h

theorem foldStop_preserve (cfg : FileCfg) (envOf : String → FileEnv) (now : ℚ) (rid : ℕ) :
    ∀ (l2 : List String) (s : ServiceState),
      (∃ r, lookupA s.records rid = some r ∧ isTerminal r.recordingStatus) →
      (∃ r', lookupA (l2.foldl (stopSessionRecording cfg envOf now) s).records rid = some r' ∧
        isTerminal r'.recordingStatus) ∧
      (l2.foldl (stopSessionRecording cfg envOf now) s).stationTasks = s.stationTasks ∧
      ∃ t, (l2.foldl (stopSessionRecording cfg envOf now) s).trace = s.trace ++ t ∧
        ∀ e ∈ t, ∃ k0, e = Event.finalized k0 := by
  intro l2
  induction l2 with
  | nil =>
    intro s hP
    exact ⟨hP, rfl, [], by simp, by simp⟩
  | cons k1 l2r ih =>
    intro s hP
    simp only [List.foldl_cons]
    obtain ⟨r, hr, hterm⟩ := hP
    have hP1 := stopSR_terminal_preserved cfg envOf now s k1 rid r hr hterm
    obtain ⟨hP2, ht2, t2, htr2, hfin2⟩ := ih (stopSessionRecording cfg envOf now s k1) hP1
    obtain ⟨t1, htr1, hfin1⟩ := stopSR_trace cfg envOf now s k1
    refine ⟨hP2, ?_, t1 ++ t2, ?_, ?_⟩
    · rw [ht2, stopSR_stationTasks]
    · rw [htr2, htr1, List.append_assoc]
    · intro e he
      rcases List.mem_append.mp he with h | h
      · exact hfin1 e h
      · exact hfin2 e h

theorem getElem_append_pair {α : Type} (A B : List α) (e1 e2 : α)
    (h1 : e1 ∈ A) (h2 : e2 ∈ B) :
    ∃ (i j : ℕ), i < j ∧ (A ++ B)[i]? = some e1 ∧ (A ++ B)[j]? = some e2 := by
  obtain ⟨i, hi⟩ := List.mem_iff_getElem?.mp h1
  obtain ⟨j0, hj0⟩ := List.mem_iff_getElem?.mp h2
  have hiA : i < A.length := (List.getElem?_eq_some_iff.mp hi).1
  refine ⟨i, A.length + j0, by omega, ?_, ?_⟩
  · rw [List.getElem?_append_left hiA]
    exact hi
  · rw [List.getElem?_append_right (by omega)]
    simpa [Nat.add_sub_cancel_left] using hj0

/-- C1: for every recording key present in the active-capture table when
`stop()` is called (whose recording row exists in the store), the
stop/finalize path brings that `RadioSessionRecording` to a terminal status
(`completed` or `failed`), and in the shutdown trace the key's finalize event
strictly precedes the cancellation of the owning station's task; afterwards
both the station-task table and the active-capture table are empty. -/
theorem c1_stop_finalizes_before_cancel (cfg : FileCfg) (envOf : String → FileEnv)
    (now : ℚ) (s : ServiceState) (k stId d tm : String) (cd : CaptureData)
    (rec : RecordingRecord)
    (htrace : s.trace = [])
    (hnodup : (s.recordingProcesses.map Prod.fst).Nodup)
    (hk : lookupA s.recordingProcesses k = some cd)
    (hrec : lookupA s.records cd.recordingId = some rec)
    (_hown : k = mkRecordingKey stId d tm)
    (hst : stId ∈ s.stationTasks) :
    (∃ r', lookupA (stopService cfg envOf now s).records cd.recordingId = some r' ∧
      isTerminal r'.recordingStatus) ∧
    (∃ (i j : ℕ), i < j ∧
      (stopService cfg envOf now s).trace[i]? = some (Event.finalized k) ∧
      (stopService cfg envOf now s).trace[j]? = some (Event.cancelled stId)) ∧
    (stopService cfg envOf now s).recordingProcesses = [] ∧
    (stopService cfg envOf now s).stationTasks = [] := by
  obtain ⟨l1, l2, hsplit⟩ :=
    List.append_of_mem (lookupA_mem_keys s.recordingProcesses k cd hk)
  have hknotin : k ∉ l1 := by
    rw [hsplit] at hnodup
    intro hmem
    exact absurd (List.mem_cons_self k l2) ((List.nodup_append.mp hnodup).2.2 hmem)
  obtain ⟨hkA, hrA, htasksA, tA, htrA, hfinA⟩ :=
    foldStop_reach cfg envOf now l1 s k cd hknotin hk (by simp [hrec])
  set sA := l1.foldl (stopSessionRecording cfg envOf now) s with hsA
  obtain ⟨recA, hrecA⟩ := Option.isSome_iff_exists.mp hrA
  obtain ⟨htrB, hrecB⟩ := stopSR_fires cfg envOf now sA k cd recA hkA hrecA
  set sB := stopSessionRecording cfg envOf now sA k with hsB
  have hPB : ∃ r', lookupA sB.records cd.recordingId = some r' ∧
      isTerminal r'.recordingStatus :=
    ⟨_, hrecB, finalizeRecording_terminal cfg (envOf k) cd.filePath cd.startTime now recA⟩
  obtain ⟨hPC, htasksC, tC, htrC, hfinC⟩ :=
    foldStop_preserve cfg envOf now cd.recordingId l2 sB hPB
  set sC := l2.foldl (stopSessionRecording cfg envOf now) sB with hsC
  have hfold : (s.recordingProcesses.map Prod.fst).foldl
      (stopSessionRecording cfg envOf now) s = sC := by
    rw [hsplit, List.foldl_append, List.foldl_cons, ← hsA, ← hsB, hsC]
  have htasksB : sB.stationTasks = s.stationTasks := by
    rw [hsB, stopSR_stationTasks, htasksA]
  have htasksC' : sC.stationTasks = s.stationTasks := by rw [htasksC, htasksB]
  have hrecords : (stopService cfg envOf now s).records = sC.records := by
    simp only [stopService]
    rw [hfold]
  have htraceS : (stopService cfg envOf now s).trace =
      sC.trace ++ sC.stationTasks.map Event.cancelled := by
    simp only [stopService]
    rw [hfold]
  have hmemfin : Event.finalized k ∈ sC.trace := by
    rw [htrC, htrB, htrA, htrace]
    simp
  have hmemcan : Event.cancelled stId ∈ sC.stationTasks.map Event.cancelled := by
    rw [htasksC']
    exact List.mem_map_of_mem Event.cancelled hst
  refine ⟨?_, ?_, ?_, ?_⟩
  · rw [hrecords]
    exact hPC
  · rw [htraceS]
    exact getElem_append_pair sC.trace (sC.stationTasks.map Event.cancelled)
      (Event.finalized k) (Event.cancelled stId) hmemfin hmemcan
  · simp [stopService]
  · simp [stopService]

/-- C1 witness: one station, one active capture, a `recording` row; the
shutdown finalizes it (here: to `completed`) before the task cancellation and
clears both tables. -/
theorem c1_witness :
    (∃ r', lookupA (stopService serviceFileCfg demoEnvOf 90 demoState).records
        demoCapture.recordingId = some r' ∧ isTerminal r'.recordingStatus) ∧
    (∃ (i j : ℕ), i < j ∧
      (stopService serviceFileCfg demoEnvOf 90 demoState).trace[i]? =
        some (Event.finalized "s1_20250101_0900") ∧
      (stopService serviceFileCfg demoEnvOf 90 demoState).trace[j]? =
        some (Event.cancelled "s1")) ∧
    (stopService serviceFileCfg demoEnvOf 90 demoState).recordingProcesses = [] ∧
    (stopService serviceFileCfg demoEnvOf 90 demoState).stationTasks = [] :=
  c1_stop_finalizes_before_cancel serviceFileCfg demoEnvOf 90 demoState
    "s1_20250101_0900" "s1" "20250101" "09:00" demoCapture blankRecord
    rfl (by decide) rfl rfl (by decide) (by decide)

/-- C8: after a stop that finalized a key, the key is gone from the
active-capture table, and a second stop for the same key is a no-op: it
returns the state unchanged — no second finalization, no error, record store
and active-capture table untouched. -/
theorem c8_stop_idempotent (cfg : FileCfg) (envOf : String → FileEnv) (now : ℚ)
    (st : ServiceState) (k : String) (cd : CaptureData)
    (hk : lookupA st.recordingProcesses k = some cd) :
    lookupA (stopSessionRecording cfg envOf now st k).recordingProcesses k = none ∧
    stopSessionRecording cfg envOf now (stopSessionRecording cfg envOf now st k) k =
      stopSessionRecording cfg envOf now st k := by
  have hnone : lookupA (stopSessionRecording cfg envOf now st k).recordingProcesses k =
      none := by
    rcases h2 : lookupA st.records cd.recordingId with _ | rec
    · simp only [stopSessionRecording, hk, h2]
      exact lookupA_eraseKey_self st.recordingProcesses k
    · simp only [stopSessionRecording, hk, h2]
      exact lookupA_eraseKey_self st.recordingProcesses k
  refine ⟨hnone, ?_⟩
  generalize hst1 : stopSessionRecording cfg envOf now st k = st1 at hnone
  simp only [stopSessionRecording, hnone]

/-- C8 witness: stopping the demo capture twice; the second call changes
nothing. -/
theorem c8_witness :
    lookupA (stopSessionRecording serviceFileCfg demoEnvOf 90 demoState
      "s1_20250101_0900").recordingProcesses "s1_20250101_0900" = none ∧
    stopSessionRecording serviceFileCfg demoEnvOf 90
        (stopSessionRecording serviceFileCfg demoEnvOf 90 demoState "s1_20250101_0900")
        "s1_20250101_0900" =
      stopSessionRecording serviceFileCfg demoEnvOf 90 demoState "s1_20250101_0900" :=
  c8_stop_idempotent serviceFileCfg demoEnvOf 90 demoState "s1_20250101_0900"
    demoCapture rfl

/-- C9: preflight validation treats a missing capture tool (FFmpeg), an
unwritable recording directory, or an unreachable database as errors that
make the result invalid — `validate_and_start` then aborts — while low disk
space below the configured minimum and low memory only add warnings, leave
the result valid, and startup proceeds. -/
theorem c9_preflight_hard_vs_soft_failures (minDiskGb : ℚ) (inp : ValidationInput) :
    (inp.ffmpegOk = false →
      (validateSystem minDiskGb inp).isValid = false ∧
      validateAndStart minDiskGb inp =
        Except.error "System validation failed - see report above") ∧
    (inp.permissionsOk = false →
      (validateSystem minDiskGb inp).isValid = false ∧
      validateAndStart minDiskGb inp =
        Except.error "System validation failed - see report above") ∧
    (inp.dbOk = false →
      (validateSystem minDiskGb inp).isValid = false ∧
      validateAndStart minDiskGb inp =
        Except.error "System validation failed - see report above") ∧
    (inp.ffmpegOk = true → inp.storageOk = true → inp.dbOk = true →
      inp.permissionsOk = true →
      (validateSystem minDiskGb inp).isValid = true ∧
      validateAndStart minDiskGb inp = Except.ok () ∧
      (inp.availableGb < minDiskGb →
        lowDiskWarning ∈ (validateSystem minDiskGb inp).warnings) ∧
      (inp.memoryGb < 1 →
        lowMemoryWarning ∈ (validateSystem minDiskGb inp).warnings)) := by
  refine ⟨fun h => ?_, fun h => ?_, fun h => ?_, fun h1 h2 h3 h4 => ?_⟩
  · constructor
    · simp [validateSystem, h]
    · simp [validateAndStart, validateSystem, h]
  · constructor
    · simp [validateSystem, h]
    · simp [validateAndStart, validateSystem, h]
  · constructor
    · simp [validateSystem, h]
    · simp [validateAndStart, validateSystem, h]
  · refine ⟨?_, ?_, fun hd => ?_, fun hm => ?_⟩
    · simp [validateSystem, h1, h2, h3, h4]
    · simp [validateAndStart, validateSystem, h1, h2, h3, h4]
    · simp [validateSystem, h1, h2, h3, h4, hd]
    · simp [validateSystem, h1, h2, h3, h4, hm]

/-- C9 witness: missing FFmpeg, unwritable directory and unreachable database
each abort startup, while low disk plus low memory only produce warnings and
startup proceeds. -/
theorem c9_witness :
    ((validateSystem serviceMinDiskGb noFfmpegInput).isValid = false ∧
      validateAndStart serviceMinDiskGb noFfmpegInput =
        Except.error "System validation failed - see report above") ∧
    ((validateSystem serviceMinDiskGb noWriteInput).isValid = false ∧
      validateAndStart serviceMinDiskGb noWriteInput =
        Except.error "System validation failed - see report above") ∧
    ((validateSystem serviceMinDiskGb noDbInput).isValid = false ∧
      validateAndStart serviceMinDiskGb noDbInput =
        Except.error "System validation failed - see report above") ∧
    ((validateSystem serviceMinDiskGb degradedInput).isValid = true ∧
      validateAndStart serviceMinDiskGb degradedInput = Except.ok () ∧
      (degradedInput.availableGb < serviceMinDiskGb →
        lowDiskWarning ∈ (validateSystem serviceMinDiskGb degradedInput).warnings) ∧
      (degradedInput.memoryGb < 1 →
        lowMemoryWarning ∈ (validateSystem serviceMinDiskGb degradedInput).warnings)) :=
  ⟨(c9_preflight_hard_vs_soft_failures serviceMinDiskGb noFfmpegInput).1 rfl,
   (c9_preflight_hard_vs_soft_failures serviceMinDiskGb noWriteInput).2.1 rfl,
   (c9_preflight_hard_vs_soft_failures serviceMinDiskGb noDbInput).2.2.1 rfl,
   (c9_preflight_hard_vs_soft_failures serviceMinDiskGb degradedInput).2.2.2
     rfl rfl rfl rfl⟩

end CapitalRadio
